import Mathlib

/-!
# Verification of the thop session-orchestration core

A shallow embedding, in Lean 4, of the parts of the `thop` Rust code base
(session transports, session manager, background-job registry, agent-protocol
server dispatch, and the command-restriction engine) that the specification's
testable claims are about, together with proofs settling those claims.

Conventions used throughout:

* Rust `String` becomes Lean `String`; ordered traversals of Rust `HashMap`s
  that the claims depend on are modelled as association lists
  (`List (key × value)`) with first-match lookup, matching `HashMap` key
  uniqueness.
* Fallible Rust functions returning `Result<T, E>` become Lean functions
  returning `Except E T`; `&mut self` methods additionally return the updated
  state.
* Interactions with the operating environment (filesystem tests, process
  spawning, TCP/SSH traffic, clock reads, state-file writes) are modelled by
  explicit environment records passed to the embedded functions; each record
  field corresponds to one observable outcome of the environment.
* Rust regex `\s` and `str::trim` use Unicode white space; the commands in the
  claims are ASCII, so whitespace is modelled as the ASCII white-space
  characters (space, tab, line feed, carriage return, vertical tab, form
  feed), on which the two notions agree.
-/

set_option autoImplicit false

namespace Thop

/-- ASCII whitespace, as matched by Rust regex `\s` and `str::trim` on the
ASCII command strings considered here. -/
def isWsChar (c : Char) : Bool :=
  c = ' ' || c = '\t' || c = '\n' || c = '\r' || c = '\x0b' || c = '\x0c'

/-- The separator characters of the restriction patterns: the character class
`[|;&]` in `src/thop-rust/src/restriction.rs`. -/
def isSepChar (c : Char) : Bool :=
  c = '|' || c = ';' || c = '&'

/-- Rust regex `\w` restricted to ASCII: letters, digits and underscore. -/
def isWordChar (c : Char) : Bool :=
  c.isAlphanum || c = '_'

/-- Rust `str::trim`, on the character list. -/
def trimChars (l : List Char) : List Char :=
  ((l.dropWhile isWsChar).reverse.dropWhile isWsChar).reverse

/-- Rust `str::trim`. -/
def strTrim (s : String) : String :=
  ⟨trimChars s.data⟩

/-! ## Restriction engine (`src/thop-rust/src/restriction.rs`)

Each rule's compiled regex has the shape `(?:^|[|;&])P` for a suffix pattern
`P`.  `Regex::is_match` succeeds iff the pattern matches at some position of
the input; the anchored alternative matches at position 0 and the `[|;&]`
alternative consumes one separator character, so the whole-string match is:
`P` matches at the start of the string, or `P` matches directly after some
separator character.  Every suffix pattern `P` used by the engine begins with
`\s*` followed by a non-white-space token, so the greedy translation below
(drop the white space, then test the token) is equivalent to the backtracking
regex semantics. -/

/-- `\s*CMD\s` matched at the current position (`CMD` a literal command
name). -/
def cmdHereMatch (cmd : List Char) (s : List Char) : Bool :=
  let rest := s.dropWhile isWsChar
  cmd.isPrefixOf rest &&
    match rest.drop cmd.length with
    | c :: _ => isWsChar c
    | [] => false

/-- `>\s*\S` matched after leading `\s*` at the current position (the
bare-redirect rule `(?:^|[|;&])\s*>\s*\S`). -/
def redirHereMatch (s : List Char) : Bool :=
  match s.dropWhile isWsChar with
  | '>' :: rest =>
    match rest.dropWhile isWsChar with
    | c :: _ => !isWsChar c
    | [] => false
  | _ => false

/-- `-s\s*0` matched at exactly the current position. -/
def dashS0Match (s : List Char) : Bool :=
  match s with
  | '-' :: 's' :: rest =>
    match rest.dropWhile isWsChar with
    | '0' :: _ => true
    | _ => false
  | _ => false

/-- `.*-s\s*0` matched at the current position (`.` excludes the line
feed). -/
def dotStarDashS0 : List Char → Bool
  | [] => false
  | c :: rest => dashS0Match (c :: rest) || (c ≠ '\n' && dotStarDashS0 rest)

/-- `\s*.*-s\s*0` matched at the current position, by the regex equation
`\s*X = X | \s (\s*X)`. -/
def wsStarDotStarDashS0 : List Char → Bool
  | [] => false
  | c :: rest =>
    dotStarDashS0 (c :: rest) || (isWsChar c && wsStarDotStarDashS0 rest)

/-- `\s*truncate\s+.*-s\s*0` matched at the current position (the
truncate-to-zero rule). -/
def truncateHereMatch (s : List Char) : Bool :=
  let rest := s.dropWhile isWsChar
  "truncate".data.isPrefixOf rest &&
    match rest.drop 8 with
    | c :: t => isWsChar c && wsStarDotStarDashS0 t
    | [] => false

/-- `\s*mkfs(?:\.\w+)?\s` matched at the current position (the mkfs-variant
rule). -/
def mkfsHereMatch (s : List Char) : Bool :=
  let rest := s.dropWhile isWsChar
  "mkfs".data.isPrefixOf rest &&
    (match rest.drop 4 with
     | c :: t =>
       if isWsChar c then true
       else if c = '.' then
         match t.dropWhile isWordChar with
         | d :: _ => !(t.takeWhile isWordChar).isEmpty && isWsChar d
         | [] => false
       else false
     | [] => false)

/-- Does the suffix pattern match directly after some `[|;&]` separator
character of the string? -/
def afterSepMatch (here : List Char → Bool) : List Char → Bool
  | [] => false
  | c :: rest => (isSepChar c && here rest) || afterSepMatch here rest

/-- `Regex::is_match` for a pattern of the shape `(?:^|[|;&])P`, where `here`
decides `P` at a given position. -/
def reMatch (here : List Char → Bool) (s : List Char) : Bool :=
  here s || afterSepMatch here s

/-- The four shapes of compiled pattern built by the rule constructors in
`restriction.rs`. -/
inductive RulePat where
  /-- `(?:^|[|;&])\s*CMD\s` for a literal command name. -/
  | bareCmd (cmd : String)
  /-- `(?:^|[|;&])\s*truncate\s+.*-s\s*0` -/
  | truncateZero
  /-- `(?:^|[|;&])\s*>\s*\S` -/
  | redirectTruncate
  /-- `(?:^|[|;&])\s*mkfs(?:\.\w+)?\s` -/
  | mkfsAny
deriving DecidableEq, Repr

/-- Pattern matching against the whole command string. -/
def RulePat.isMatch : RulePat → String → Bool
  | .bareCmd cmd, s => reMatch (cmdHereMatch cmd.data) s.data
  | .truncateZero, s => reMatch truncateHereMatch s.data
  | .redirectTruncate, s => reMatch redirHereMatch s.data
  | .mkfsAny, s => reMatch mkfsHereMatch s.data

/-- `restriction::Category`. -/
inductive Category where
  | privilegeEscalation
  | destructiveFile
  | systemModification
deriving DecidableEq, Repr

/-- `restriction::Rule` (the `description` field is dead code in the source
and is omitted). -/
structure Rule where
  pattern : RulePat
  category : Category
  command : String
deriving DecidableEq, Repr

/-- `build_privilege_escalation_rules`. -/
def privilegeEscalationRules : List Rule :=
  ["sudo", "su", "doas", "pkexec"].map
    (fun c => ⟨.bareCmd c, .privilegeEscalation, c⟩)

/-- `build_destructive_file_rules`. -/
def destructiveFileRules : List Rule :=
  (["rm", "rmdir", "shred", "wipe", "srm", "unlink", "dd"].map
    (fun c => ⟨.bareCmd c, .destructiveFile, c⟩)) ++
  [⟨.truncateZero, .destructiveFile, "truncate"⟩,
   ⟨.redirectTruncate, .destructiveFile, "> redirect"⟩]

/-- `build_system_modification_rules`. -/
def systemModificationRules : List Rule :=
  (["chmod", "chown", "chgrp", "chattr", "fdisk", "parted", "mount", "umount",
    "fsck", "shutdown", "reboot", "poweroff", "halt", "init", "useradd",
    "userdel", "usermod", "groupadd", "groupdel", "groupmod", "passwd",
    "systemctl", "service", "insmod", "rmmod", "modprobe", "setenforce",
    "aa-enforce", "aa-complain"].map
    (fun c => ⟨.bareCmd c, .systemModification, c⟩)) ++
  [⟨.mkfsAny, .systemModification, "mkfs"⟩]

/-- The rule list assembled by `Checker::new`, in registration order. -/
def checkerRules : List Rule :=
  privilegeEscalationRules ++ destructiveFileRules ++ systemModificationRules

/-- `restriction::CheckResult` (the rule reference becomes the rule value). -/
structure CheckResult where
  allowed : Bool
  rule : Option Rule
deriving DecidableEq, Repr

/-- `CheckResult::command`. -/
def CheckResult.commandName (r : CheckResult) : Option String :=
  r.rule.map Rule.command

/-- `CheckResult::category`. -/
def CheckResult.category (r : CheckResult) : Option Category :=
  r.rule.map Rule.category

/-- `Checker::check`.  The checker's only mutable state is the atomic
`enabled` flag, passed here as a boolean. -/
def Checker.check (enabled : Bool) (cmd : String) : CheckResult :=
  if !enabled then ⟨true, none⟩
  else
    let cmd := strTrim cmd
    if cmd = "" then ⟨true, none⟩
    else
      match checkerRules.find? (fun r => r.pattern.isMatch cmd) with
      | some r => ⟨false, some r⟩
      | none => ⟨true, none⟩

/-- C4: with the engine enabled, `check "sudo ls"`, `check "ls; sudo rm f"`
and `check "a && sudo b"` are rejected with category privilege-escalation
(first matching rule wins), while `check "echo 'use sudo'"` and
`check "grep rm file"` are allowed; with the engine disabled (the default)
every command is allowed, and with the engine enabled a command that trims to
the empty string is allowed. -/
theorem c4_restriction_engine_check :
    (Checker.check true "sudo ls").allowed = false ∧
    (Checker.check true "sudo ls").category = some .privilegeEscalation ∧
    (Checker.check true "ls; sudo rm f").allowed = false ∧
    (Checker.check true "ls; sudo rm f").category = some .privilegeEscalation ∧
    (Checker.check true "a && sudo b").allowed = false ∧
    (Checker.check true "a && sudo b").category = some .privilegeEscalation ∧
    (Checker.check true "echo \x27use sudo\x27").allowed = true ∧
    (Checker.check true "grep rm file").allowed = true ∧
    (∀ cmd, (Checker.check false cmd).allowed = true) ∧
    (∀ cmd, strTrim cmd = "" → (Checker.check true cmd).allowed = true) := by
  refine ⟨by decide, by decide, by decide, by decide, by decide, by decide,
    by decide, by decide, fun cmd => rfl, fun cmd h => ?_⟩
  simp [Checker.check, h]

/-- Witness for the hypothesis-bearing conjunct of `c4_restriction_engine_check`:
the all-blank command `"   "` trims to empty and is allowed. -/
theorem c4_restriction_engine_check_witness :
    strTrim "   " = "" ∧ (Checker.check true "   ").allowed = true :=
  ⟨by decide, c4_restriction_engine_check.2.2.2.2.2.2.2.2.2 "   " (by decide)⟩

/-! ## Error model (`src/thop-rust/src/error.rs`) -/

/-- `error::ErrorCode`. -/
inductive SessionErrorCode where
  | connectionFailed
  | connectionTimeout
  | authPasswordRequired
  | authKeyRejected
  | authFailed
  | hostKeyVerificationFailed
  | hostKeyChanged
  | commandTimeout
  | commandRestricted
  | sessionNotFound
  | sessionDisconnected
deriving DecidableEq, Repr

/-- `error::SessionError`. -/
structure SessionError where
  code : SessionErrorCode
  message : String
  session : Option String
  host : Option String
  retryable : Bool
  suggestion : Option String
deriving DecidableEq, Repr

/-- `SessionError::new`. -/
def SessionError.new (code : SessionErrorCode) (message session : String) :
    SessionError :=
  { code, message, session := some session, host := none, retryable := false,
    suggestion := none }

/-- `SessionError::session_not_found`. -/
def SessionError.sessionNotFound (name : String) : SessionError :=
  SessionError.new .sessionNotFound
    ("Session \x27" ++ name ++ "\x27 not found") name

/-- `SessionError::session_disconnected`. -/
def SessionError.sessionDisconnected (name : String) : SessionError :=
  { SessionError.new .sessionDisconnected
      ("Session \x27" ++ name ++ "\x27 is not connected") name with
    suggestion := some "Use /connect to establish connection" }

/-- `error::ThopError`.  The `Io` variant's wrapped `io::Error` is modelled by
its display text. -/
inductive ThopError where
  | session (e : SessionError)
  | config (msg : String)
  | io (msg : String)
  | state (msg : String)
  | other (msg : String)
deriving DecidableEq, Repr

/-- `session::ExecuteResult` (field defaults are its `Default` impl). -/
structure ExecuteResult where
  stdout : String := ""
  stderr : String := ""
  exitCode : Int := 0
deriving DecidableEq, Repr

/-! ## Local transport (`src/thop-rust/src/session/local.rs`)

String tests written with `starts_with` in the source are embedded at the
character-list level (`List.isPrefixOf` on `String.data`, or a head-character
pattern match), which is extensionally the same test. -/

/-- The observable outcome of `std::process::Command::output()`: the captured
stdout/stderr text, the `status.success()` flag and the `status.code()`
value. -/
structure OsOutput where
  stdout : String := ""
  stderr : String := ""
  success : Bool := true
  code : Option Int := some 0
deriving DecidableEq, Repr

/-- The operating environment a local session runs against.  `run` is the
effect of `Command::new(shell).arg("-c").arg(cmd)` with an optional working
directory and extra environment entries; a `.error` is the display text of a
failed spawn (`io::Error`). -/
structure LocalEnv where
  pathExists : String → Bool
  pathIsDir : String → Bool
  run : String → Option String → List (String × String) → String →
    Except String OsOutput
  homeDir : Option String

/-- `LocalSession`. -/
structure LocalSession where
  name : String
  shell : String
  cwd : String
  env : List (String × String)
  connected : Bool
deriving DecidableEq, Repr

/-- `LocalSession::new`.  `shellVar` is the `SHELL` environment variable,
`currentDir` the result of `env::current_dir()` and `homeDir` of
`dirs::home_dir()`, each at construction time. -/
def LocalSession.new (name : String) (shell : Option String)
    (shellVar currentDir homeDir : Option String) : LocalSession :=
  { name
    shell := shell.getD (shellVar.getD "/bin/sh")
    cwd := currentDir.getD (homeDir.getD "/")
    env := []
    connected := true }

/-- `Session::connect` for the local variant. -/
def LocalSession.connect (s : LocalSession) :
    LocalSession × Except ThopError Unit :=
  ({ s with connected := true }, .ok ())

/-- `Session::disconnect` for the local variant. -/
def LocalSession.disconnect (s : LocalSession) :
    LocalSession × Except ThopError Unit :=
  ({ s with connected := false }, .ok ())

/-- `str::split_whitespace`. -/
def splitWsChars : List Char → List (List Char)
  | [] => []
  | c :: rest =>
    if isWsChar c then splitWsChars rest
    else
      (c :: rest.takeWhile (fun d => !isWsChar d)) ::
        splitWsChars (rest.dropWhile (fun d => !isWsChar d))
termination_by l => l.length
decreasing_by
  · simp_wf
  · simp_wf
    have := (List.dropWhile_sublist (l := rest)
      (p := fun d => !isWsChar d)).length_le
    omega

/-- The tail of `LocalSession::handle_cd` after the target directory has been
resolved: existence and directory checks, then canonicalisation through the
shell (`cd <target> && pwd`), storing the trimmed output as the new `cwd` on
success. -/
def LocalSession.cdToDir (env : LocalEnv) (s : LocalSession)
    (targetDir : String) : LocalSession × Except ThopError ExecuteResult :=
  if !env.pathExists targetDir then
    (s, .ok { stderr := "cd: " ++ targetDir ++ ": No such file or directory\n",
              exitCode := 1 })
  else if !env.pathIsDir targetDir then
    (s, .ok { stderr := "cd: " ++ targetDir ++ ": Not a directory\n",
              exitCode := 1 })
  else
    match env.run s.shell none [] ("cd " ++ targetDir ++ " && pwd") with
    | .ok out =>
      if out.success then
        ({ s with cwd := strTrim out.stdout }, .ok {})
      else
        (s, .ok { stderr := out.stderr, exitCode := out.code.getD 1 })
    | .error e =>
      (s, .ok { stderr := "cd: " ++ targetDir ++ ": " ++ e ++ "\n",
                exitCode := 1 })

/-- `LocalSession::handle_cd`.  The result is `none` only in the case — dead
under `execute`'s guard — of a command with no white-space-separated parts,
where the source would index out of bounds. -/
def LocalSession.handleCd (env : LocalEnv) (s : LocalSession) (cmd : String) :
    Option (LocalSession × Except ThopError ExecuteResult) :=
  match splitWsChars cmd.data with
  | [] => none
  | [_] =>
    -- `cd` with no argument goes to the home directory
    match env.homeDir with
    | some p => some (s.cdToDir env p)
    | none =>
      some (s, .ok { stderr := "cd: HOME not set\n", exitCode := 1 })
  | _ :: target :: _ =>
    -- `~` expansion: `target.starts_with('~')` is a head-character test, and
    -- `target.replacen('~', &home, 1)` with the `~` leading replaces it
    let expanded : List Char :=
      if target.head? == some '~' then (env.homeDir.getD "~").data ++ target.tail
      else target
    -- relative paths are joined onto the tracked cwd
    let targetDir : String :=
      if expanded.head? == some '/' then ⟨expanded⟩
      else s.cwd ++ "/" ++ ⟨expanded⟩
    some (s.cdToDir env targetDir)

/-- `Session::execute` for the local variant. -/
def LocalSession.execute (env : LocalEnv) (s : LocalSession) (cmd : String) :
    Option (LocalSession × Except ThopError ExecuteResult) :=
  let trimmed := strTrim cmd
  if trimmed == "cd" || "cd ".data.isPrefixOf trimmed.data then
    s.handleCd env cmd
  else
    match env.run s.shell (some s.cwd) s.env cmd with
    | .ok out =>
      some (s, .ok { stdout := out.stdout, stderr := out.stderr,
                     exitCode := out.code.getD (-1) })
    | .error e => some (s, .error (.io e))

/-- `Session::set_env` for the local variant (used by the claims only through
the environment list). -/
def LocalSession.setEnv (s : LocalSession) (key value : String) :
    LocalSession :=
  { s with env := (s.env.filter (fun p => p.1 != key)) ++ [(key, value)] }

theorem cdToDir_connected (env : LocalEnv) (s : LocalSession) (t : String) :
    (s.cdToDir env t).1.connected = s.connected := by
  unfold LocalSession.cdToDir
  split
  · rfl
  · split
    · rfl
    · split
      · split <;> rfl
      · rfl

theorem handleCd_connected (env : LocalEnv) (s : LocalSession) (cmd : String)
    (p : LocalSession × Except ThopError ExecuteResult)
    (h : s.handleCd env cmd = some p) : p.1.connected = s.connected := by
  unfold LocalSession.handleCd at h
  split at h
  · exact absurd h (by simp)
  · split at h
    · cases h
      exact cdToDir_connected ..
    · cases h
      rfl
  · cases h
    exact cdToDir_connected ..

theorem execute_connected (env : LocalEnv) (s : LocalSession) (cmd : String)
    (p : LocalSession × Except ThopError ExecuteResult)
    (h : s.execute env cmd = some p) : p.1.connected = s.connected := by
  simp only [LocalSession.execute] at h
  by_cases hc : (strTrim cmd == "cd"
      || "cd ".data.isPrefixOf (strTrim cmd).data) = true
  · rw [if_pos hc] at h
    exact handleCd_connected _ _ _ _ h
  · rw [if_neg hc] at h
    split at h <;> (cases h; rfl)

/-- C1 counterexample: the claim "a local session cannot be disconnected"
fails — `LocalSession::disconnect` on a freshly constructed local session
returns `Ok` and leaves `is_connected()` returning `false` (the repository's
own test `test_connect_disconnect` asserts exactly this behaviour). -/
theorem c1_local_disconnect_counterexample :
    ((LocalSession.new "test" (some "/bin/sh") none (some "/") none).disconnect).2
        = .ok () ∧
    ((LocalSession.new "test" (some "/bin/sh") none (some "/")
        none).disconnect).1.connected = false :=
  ⟨rfl, rfl⟩

/-- C1 amended: a local session starts with `connected = true`, and
`connect`/`disconnect` are no-ops that only flip the in-memory flag —
`connect` sets it to `true`, `disconnect` sets it to `false`, both always
succeed — while `execute` never changes the flag. -/
theorem c1_local_connected_flag (s : LocalSession) :
    (∀ name shell shellVar currentDir homeDir,
      (LocalSession.new name shell shellVar currentDir homeDir).connected
        = true) ∧
    (s.connect.1.connected = true ∧ s.connect.2 = .ok ()) ∧
    (s.disconnect.1.connected = false ∧ s.disconnect.2 = .ok ()) ∧
    (∀ env cmd p, s.execute env cmd = some p →
      p.1.connected = s.connected) := by
  exact ⟨fun _ _ _ _ _ => rfl, ⟨rfl, rfl⟩, ⟨rfl, rfl⟩,
    fun env cmd p h => execute_connected env s cmd p h⟩

/-- Witness for `c1_local_connected_flag`: on a concrete session and an
environment whose shell invocation succeeds, `execute "echo hi"` evaluates to
a result and leaves the connected flag where it was (`true`). -/
theorem c1_local_connected_flag_witness :
    ((LocalSession.new "test" (some "/bin/sh") none (some "/") none).execute
        ⟨fun _ => false, fun _ => false,
         fun _ _ _ _ => .ok { stdout := "hi\n" }, none⟩ "echo hi").map
      (fun p => p.1.connected) = some true := by
  have h : (LocalSession.new "test" (some "/bin/sh") none (some "/")
      none).execute
      ⟨fun _ => false, fun _ => false,
       fun _ _ _ _ => .ok { stdout := "hi\n" }, none⟩ "echo hi"
      = some (LocalSession.new "test" (some "/bin/sh") none (some "/") none,
          .ok { stdout := "hi\n", stderr := "", exitCode := 0 }) := rfl
  rw [h]
  exact congrArg some
    ((c1_local_connected_flag _).2.2.2 _ "echo hi" _ h)

theorem takeWhile_nonWs (l : List Char)
    (h : ∀ c ∈ l, isWsChar c = false) :
    l.takeWhile (fun d => !isWsChar d) = l := by
  induction l with
  | nil => rfl
  | cons c t ih =>
    rw [List.takeWhile_cons_of_pos (by simp [h c (List.mem_cons_self ..)])]
    rw [ih fun d hd => h d (List.mem_cons_of_mem _ hd)]

theorem dropWhile_nonWs (l : List Char)
    (h : ∀ c ∈ l, isWsChar c = false) :
    l.dropWhile (fun d => !isWsChar d) = [] := by
  induction l with
  | nil => rfl
  | cons c t ih =>
    rw [List.dropWhile_cons_of_pos (by simp [h c (List.mem_cons_self ..)])]
    exact ih fun d hd => h d (List.mem_cons_of_mem _ hd)

theorem splitWsChars_all_nonWs (l : List Char) (h1 : l ≠ [])
    (h2 : ∀ c ∈ l, isWsChar c = false) : splitWsChars l = [l] := by
  cases l with
  | nil => exact absurd rfl h1
  | cons c rest =>
    rw [splitWsChars, if_neg (by simp [h2 c (List.mem_cons_self ..)])]
    rw [takeWhile_nonWs rest fun d hd => h2 d (List.mem_cons_of_mem _ hd)]
    rw [dropWhile_nonWs rest fun d hd => h2 d (List.mem_cons_of_mem _ hd)]
    rw [splitWsChars]

/-- `split_whitespace` of `"cd " ++ d` for a non-empty argument `d` free of
white space is the two parts `["cd", d]`. -/
theorem splitWsChars_cd (l : List Char) (h1 : l ≠ [])
    (h2 : ∀ c ∈ l, isWsChar c = false) :
    splitWsChars ('c' :: 'd' :: ' ' :: l) = [['c', 'd'], l] := by
  rw [splitWsChars, if_neg (by decide)]
  have ht : ('d' :: ' ' :: l).takeWhile (fun d => !isWsChar d) = ['d'] := by
    rw [List.takeWhile_cons_of_pos (by decide),
      List.takeWhile_cons_of_neg (by decide)]
  have hdw : ('d' :: ' ' :: l).dropWhile (fun d => !isWsChar d) = ' ' :: l := by
    rw [List.dropWhile_cons_of_pos (by decide),
      List.dropWhile_cons_of_neg (by decide)]
  rw [ht, hdw, splitWsChars, if_pos (by decide),
    splitWsChars_all_nonWs l h1 h2]

/-- `str::trim` of `"cd " ++ d` for a non-empty `d` free of white space is the
identity. -/
theorem trimChars_cd (l : List Char) (h1 : l ≠ [])
    (h2 : ∀ c ∈ l, isWsChar c = false) :
    trimChars ('c' :: 'd' :: ' ' :: l) = 'c' :: 'd' :: ' ' :: l := by
  unfold trimChars
  rw [List.dropWhile_cons_of_neg (by decide)]
  have hrev : ('c' :: 'd' :: ' ' :: l).reverse = l.reverse ++ [' ', 'd', 'c'] := by
    simp
  rw [hrev]
  obtain ⟨a, s, ha⟩ : ∃ a s, l.reverse = a :: s := by
    cases hr : l.reverse with
    | nil => exact absurd (List.reverse_eq_nil_iff.mp hr) h1
    | cons a s => exact ⟨a, s, rfl⟩
  have hans : isWsChar a = false := by
    apply h2
    rw [← List.mem_reverse, ha]
    exact List.mem_cons_self ..
  rw [ha, List.cons_append, List.dropWhile_cons_of_neg (by simp [hans])]
  rw [← List.cons_append, ← ha]
  simp

/-- C7: on a local session, `execute ("cd " ++ d)` for an absolute,
white-space-free directory path `d` that does not exist returns exit code 1
with the `"No such file or directory"` message and returns the session state
unchanged (in particular the tracked cwd); if `d` exists and is a directory,
and the shell canonicalises it to `canon` (the `cd <d> && pwd` round trip),
the new tracked cwd is `canon` and a subsequent `execute "pwd"` reports
exactly `canon`. -/
theorem c7_local_cd_tracking (env : LocalEnv) (s : LocalSession)
    (d canon : String) (hd : d.data ≠ []) (habs : d.data.head? = some '/')
    (hnws : ∀ c ∈ d.data, isWsChar c = false) :
    (env.pathExists d = false →
      s.execute env ("cd " ++ d) =
        some (s, .ok { stderr := "cd: " ++ d ++ ": No such file or directory\n",
                       exitCode := 1 })) ∧
    (env.pathExists d = true → env.pathIsDir d = true →
      env.run s.shell none [] ("cd " ++ d ++ " && pwd") =
        .ok { stdout := canon ++ "\n", stderr := "", success := true,
              code := some 0 } →
      strTrim (canon ++ "\n") = canon →
      env.run s.shell (some canon) s.env "pwd" =
        .ok { stdout := canon ++ "\n", stderr := "", success := true,
              code := some 0 } →
      s.execute env ("cd " ++ d) = some ({ s with cwd := canon }, .ok {}) ∧
      LocalSession.execute env { s with cwd := canon } "pwd" =
        some ({ s with cwd := canon },
          .ok { stdout := canon ++ "\n", stderr := "", exitCode := 0 })) := by
  have hdata : ("cd " ++ d).data = 'c' :: 'd' :: ' ' :: d.data := by
    rw [String.data_append]
    rfl
  have htrim : strTrim ("cd " ++ d) = "cd " ++ d := by
    show String.mk (trimChars ("cd " ++ d).data) = "cd " ++ d
    rw [hdata, trimChars_cd d.data hd hnws, ← hdata]
  have hguard : (strTrim ("cd " ++ d) == "cd"
      || "cd ".data.isPrefixOf (strTrim ("cd " ++ d)).data) = true := by
    rw [htrim, hdata]
    simp [List.isPrefixOf]
  obtain ⟨rest, hdd⟩ : ∃ rest, d.data = '/' :: rest := by
    cases hr : d.data with
    | nil => rw [hr] at habs; exact absurd habs (by simp)
    | cons a t =>
      rw [hr] at habs
      simp at habs
      exact ⟨t, by rw [habs]⟩
  have hcd : s.execute env ("cd " ++ d) = some (s.cdToDir env d) := by
    simp only [LocalSession.execute]
    rw [if_pos hguard]
    simp only [LocalSession.handleCd]
    rw [hdata, splitWsChars_cd d.data hd hnws]
    have h1 : (d.data.head? == some '~') = false := by
      rw [hdd]; rfl
    have h2 : (d.data.head? == some '/') = true := by
      rw [hdd]; rfl
    simp only [h1, h2, if_neg Bool.false_ne_true, if_pos rfl, if_true]
  refine ⟨fun hex => ?_, fun hex hdir hrun htrimc hpwd => ?_⟩
  · rw [hcd]
    simp [LocalSession.cdToDir, hex]
  · have hcd2 : s.cdToDir env d = ({ s with cwd := canon }, .ok {}) := by
      simp only [LocalSession.cdToDir]
      rw [if_neg (by simp [hex]), if_neg (by simp [hdir]), hrun]
      simp [htrimc]
    refine ⟨by rw [hcd, hcd2], ?_⟩
    have hguardp : (strTrim "pwd" == "cd"
        || "cd ".data.isPrefixOf (strTrim "pwd").data) = false := by decide
    simp only [LocalSession.execute]
    rw [if_neg (by simp [hguardp])]
    simp only [hpwd]
    rfl

/-- Witness for `c7_local_cd_tracking`: a concrete environment in which
`/missing` does not exist (part one of the theorem) and `/tmp` exists, is a
directory, and canonicalises to itself (part two). -/
theorem c7_local_cd_tracking_witness :
    (LocalSession.execute
        ⟨fun _ => false, fun _ => false, fun _ _ _ _ => .error "spawn", none⟩
        (LocalSession.new "test" (some "/bin/sh") none (some "/") none)
        "cd /missing" =
      some (LocalSession.new "test" (some "/bin/sh") none (some "/") none,
        .ok { stderr := "cd: /missing: No such file or directory\n",
              exitCode := 1 })) ∧
    (LocalSession.execute
        ⟨fun _ => true, fun _ => true,
         fun _ _ _ _ => .ok { stdout := "/tmp\n" }, none⟩
        (LocalSession.new "test" (some "/bin/sh") none (some "/") none)
        "cd /tmp" =
      some ({ LocalSession.new "test" (some "/bin/sh") none (some "/") none
                with cwd := "/tmp" }, .ok {})) := by
  constructor
  · exact (c7_local_cd_tracking _ _ "/missing" "/tmp" (by decide) (by decide)
      (by decide)).1 rfl
  · exact ((c7_local_cd_tracking _ _ "/tmp" "/tmp" (by decide) (by decide)
      (by decide)).2 rfl rfl rfl (by decide) rfl).1

/-! ## Remote (SSH) transport (`src/thop-rust/src/session/ssh.rs`) -/

/-- `session::SshConfig`. -/
structure SshConfig where
  host : String
  user : String
  port : Nat
  identityFile : Option String
deriving DecidableEq, Repr

/-- `SshSession`.  The live `Option<ssh2::Session>` handle carries no state
observable by the claims beyond its presence, so it is modelled as
`Option Unit`. -/
structure SshSession where
  name : String
  config : SshConfig
  session : Option Unit
  cwd : String
  env : List (String × String)
deriving DecidableEq, Repr

/-- `SshSession::new`. -/
def SshSession.new (name : String) (config : SshConfig) : SshSession :=
  { name, config, session := none, cwd := "/", env := [] }

/-- The environment-visible steps a fresh `SshSession::connect` performs, in
order, and the step performed by `disconnect`.  The connect/disconnect
functions below return the list of steps actually performed so that
"without re-running the handshake" is expressible. -/
inductive SshStep where
  | tcpConnect
  | handshake
  | verifyHostKey
  | authenticate
  | initialPwd
  | closeSession
deriving DecidableEq, Repr

/-- The outcomes the operating environment supplies for one connection
attempt.  `tcpResult` covers address resolution, `TcpStream::connect_timeout`
and `ssh2::Session::new` (each error already classified as in the source);
`pwdResult` covers the throwaway `pwd` channel, whose `.ok` value is the
captured stdout. -/
structure SshEnv where
  tcpResult : Except ThopError Unit
  handshakeResult : Except ThopError Unit
  hostKeyResult : Except ThopError Unit
  authResult : Except ThopError Unit
  pwdResult : Except ThopError String
deriving Repr

/-- `SshSession::connect`, also reporting the environment steps performed. -/
def SshSession.connect (env : SshEnv) (s : SshSession) :
    SshSession × Except ThopError Unit × List SshStep :=
  if s.session.isSome then (s, .ok (), [])
  else
    match env.tcpResult with
    | .error e => (s, .error e, [.tcpConnect])
    | .ok () =>
      match env.handshakeResult with
      | .error e => (s, .error e, [.tcpConnect, .handshake])
      | .ok () =>
        match env.hostKeyResult with
        | .error e => (s, .error e, [.tcpConnect, .handshake, .verifyHostKey])
        | .ok () =>
          match env.authResult with
          | .error e =>
            (s, .error e,
              [.tcpConnect, .handshake, .verifyHostKey, .authenticate])
          | .ok () =>
            match env.pwdResult with
            | .error e =>
              (s, .error e,
                [.tcpConnect, .handshake, .verifyHostKey, .authenticate,
                 .initialPwd])
            | .ok out =>
              let cwd := strTrim out
              ({ s with cwd := if cwd = "" then "/" else cwd,
                        session := some () },
               .ok (),
               [.tcpConnect, .handshake, .verifyHostKey, .authenticate,
                .initialPwd])

/-- `SshSession::disconnect` (`self.session.take()`, closing the underlying
session if one was open; always `Ok`). -/
def SshSession.disconnect (s : SshSession) :
    SshSession × Except ThopError Unit × List SshStep :=
  match s.session with
  | some _ => ({ s with session := none }, .ok (), [.closeSession])
  | none => (s, .ok (), [])

/-- C8: remote `disconnect` is idempotent — it always succeeds, and a second
`disconnect` on the already-disconnected session succeeds without touching
the underlying session or the state — and `connect` on an already-connected
session returns `Ok` immediately with the state unchanged and with no TCP
connection, handshake, host-key verification or authentication performed. -/
theorem c8_ssh_idempotence (env : SshEnv) (s : SshSession) :
    (s.session.isSome = true → SshSession.connect env s = (s, .ok (), [])) ∧
    (s.disconnect.2.1 = .ok ()) ∧
    (s.disconnect.1.session = none) ∧
    (SshSession.disconnect s.disconnect.1 = (s.disconnect.1, .ok (), [])) := by
  refine ⟨fun h => by simp [SshSession.connect, h], ?_, ?_, ?_⟩ <;>
  · cases hs : s.session with
    | some u => simp [SshSession.disconnect, hs]
    | none => simp [SshSession.disconnect, hs]

/-- Witness for `c8_ssh_idempotence`: the connected state reached by a
successful fresh `connect` satisfies the hypothesis, and a re-`connect` on it
changes nothing and performs no steps. -/
theorem c8_ssh_idempotence_witness :
    ((SshSession.connect ⟨.ok (), .ok (), .ok (), .ok (), .ok "/root\n"⟩
        (SshSession.new "srv" ⟨"example.com", "u", 22, none⟩)).1.session.isSome
      = true) ∧
    SshSession.connect ⟨.ok (), .ok (), .ok (), .ok (), .ok "/root\n"⟩
        (SshSession.connect ⟨.ok (), .ok (), .ok (), .ok (), .ok "/root\n"⟩
          (SshSession.new "srv" ⟨"example.com", "u", 22, none⟩)).1 =
      ((SshSession.connect ⟨.ok (), .ok (), .ok (), .ok (), .ok "/root\n"⟩
          (SshSession.new "srv" ⟨"example.com", "u", 22, none⟩)).1,
       .ok (), []) :=
  ⟨rfl, (c8_ssh_idempotence _ _).1 rfl⟩

/-- The stdout/stderr/exit-status triple read from one remote channel
(`channel.exit_status().unwrap_or(-1)` already applied). -/
structure ChanOutput where
  stdout : String := ""
  stderr : String := ""
  exitStatus : Int := 0
deriving DecidableEq, Repr

/-- `v.replace('\'', "'\\''")` used when synthesizing `export` clauses. -/
def sshQuoteEscape (v : String) : String :=
  v.replace "\x27" "\x27\\\x27\x27"

/-- The composite command string `cd <cwd> && export K='V' && ... && <cmd>`
synthesized by `SshSession::execute`. -/
def sshFullCmd (cwd : String) (env : List (String × String)) (cmd : String) :
    String :=
  (env.foldl
    (fun acc p =>
      acc ++ "export " ++ p.1 ++ "=\x27" ++ sshQuoteEscape p.2 ++ "\x27 && ")
    ("cd " ++ cwd ++ " && ")) ++ cmd

/-- One channel round of `SshSession::execute` (channel open + exec + read +
exit status), without the cwd refresh.  A `.error` is the display text of the
channel failure, wrapped into `ThopError::Other` as in the source. -/
def SshSession.executeOnce (chanExec : String → Except String ChanOutput)
    (s : SshSession) (cmd : String) :
    SshSession × Except ThopError ExecuteResult :=
  match s.session with
  | none => (s, .error (.session (SessionError.sessionDisconnected s.name)))
  | some _ =>
    match chanExec (sshFullCmd s.cwd s.env cmd) with
    | .error e => (s, .error (.other e))
    | .ok out =>
      (s, .ok { stdout := out.stdout, stderr := out.stderr,
                exitCode := out.exitStatus })

/-- `SshSession::execute`: one channel round, then — when the command is a
`cd` that reported success — the source re-enters `execute("pwd")` to refresh
the tracked cwd; `"pwd"` does not hit the `cd` branch, so the re-entry equals
one more channel round. -/
def SshSession.execute (chanExec : String → Except String ChanOutput)
    (s : SshSession) (cmd : String) :
    SshSession × Except ThopError ExecuteResult :=
  match s.executeOnce chanExec cmd with
  | (s, .error e) => (s, .error e)
  | (s, .ok res) =>
    let trimmed := strTrim cmd
    if (trimmed == "cd" || "cd ".data.isPrefixOf trimmed.data)
        && res.exitCode == 0 then
      match s.executeOnce chanExec "pwd" with
      | (s, .ok p) =>
        if p.exitCode == 0 then ({ s with cwd := strTrim p.stdout }, .ok res)
        else (s, .ok res)
      | (s, .error _) => (s, .ok res)
    else (s, .ok res)

/-! ## Session polymorphism and the session manager
(`src/thop-rust/src/session/mod.rs`, `manager.rs`, `state/mod.rs`,
`config/mod.rs`) -/

/-- The trait object `Box<dyn Session>`: exactly the two variants. -/
inductive SessionImpl where
  | localS (s : LocalSession)
  | sshS (s : SshSession)
deriving DecidableEq, Repr

/-- `Session::session_type`. -/
def SessionImpl.sessionType : SessionImpl → String
  | .localS _ => "local"
  | .sshS _ => "ssh"

/-- `Session::is_connected`. -/
def SessionImpl.isConnected : SessionImpl → Bool
  | .localS s => s.connected
  | .sshS s => s.session.isSome

/-- `Session::get_cwd`. -/
def SessionImpl.getCwd : SessionImpl → String
  | .localS s => s.cwd
  | .sshS s => s.cwd

/-- The combined operating environment a manager runs against. -/
structure OsEnv where
  localEnv : LocalEnv
  sshEnv : SshEnv
  chanExec : String → Except String ChanOutput

/-- `Session::connect` dispatch. -/
def SessionImpl.connect (env : OsEnv) :
    SessionImpl → SessionImpl × Except ThopError Unit
  | .localS s => ((SessionImpl.localS s.connect.1), s.connect.2)
  | .sshS s =>
    ((SessionImpl.sshS (SshSession.connect env.sshEnv s).1),
     (SshSession.connect env.sshEnv s).2.1)

/-- `Session::disconnect` dispatch. -/
def SessionImpl.disconnect :
    SessionImpl → SessionImpl × Except ThopError Unit
  | .localS s => ((SessionImpl.localS s.disconnect.1), s.disconnect.2)
  | .sshS s => ((SessionImpl.sshS s.disconnect.1), s.disconnect.2.1)

/-- `Session::execute` dispatch (`none` only on the dead local-`cd` indexing
path, see `LocalSession.handleCd`). -/
def SessionImpl.execute (env : OsEnv) :
    SessionImpl → String → Option (SessionImpl × Except ThopError ExecuteResult)
  | .localS s, cmd =>
    (s.execute env.localEnv cmd).map (fun p => (SessionImpl.localS p.1, p.2))
  | .sshS s, cmd =>
    some (SessionImpl.sshS (s.execute env.chanExec cmd).1,
      (s.execute env.chanExec cmd).2)

/-- `state::SessionState`. -/
structure SessionState where
  sessionType : String := ""
  connected : Bool := false
  cwd : String := ""
  env : List (String × String) := []
deriving DecidableEq, Repr

instance {ε α : Type} [DecidableEq ε] [DecidableEq α] :
    DecidableEq (Except ε α) := fun a b =>
  match a, b with
  | .ok x, .ok y =>
    if h : x = y then .isTrue (by rw [h]) else .isFalse (by simp [h])
  | .error x, .error y =>
    if h : x = y then .isTrue (by rw [h]) else .isFalse (by simp [h])
  | .ok _, .error _ => .isFalse (by simp)
  | .error _, .ok _ => .isFalse (by simp)

/-- The in-memory half of `state::Manager`, together with the outcome its
`save()` (an on-disk write) produces — fixed per manager as an environmental
datum. -/
structure StateManager where
  active : String := "local"
  sessions : List (String × SessionState) := []
  saveResult : Except ThopError Unit := .ok ()
deriving DecidableEq, Repr

/-- Key-preserving insert-or-replace on an association list: the effect of
`HashMap::insert` / `entry().or_default()` on the key-value view. -/
def insertAssoc {α : Type} (l : List (String × α)) (k : String) (v : α) :
    List (String × α) :=
  if l.any (fun p => p.1 == k) then
    l.map (fun p => if p.1 == k then (k, v) else p)
  else l ++ [(k, v)]

/-- `state::Manager::get_active_session`. -/
def StateManager.getActiveSession (sm : StateManager) : String :=
  sm.active

/-- `state::Manager::set_active_session`: mutate the in-memory state, then
`save()`. -/
def StateManager.setActiveSession (sm : StateManager) (name : String) :
    StateManager × Except ThopError Unit :=
  ({ sm with active := name }, sm.saveResult)

/-- `state::Manager::set_session_connected`. -/
def StateManager.setSessionConnected (sm : StateManager) (name : String)
    (c : Bool) : StateManager × Except ThopError Unit :=
  let cur := (sm.sessions.lookup name).getD {}
  ({ sm with sessions := insertAssoc sm.sessions name { cur with connected := c } },
   sm.saveResult)

/-- `config::Session` (fields the embedded operations read; `jump_host` and
`startup_commands` are consumed by no embedded operation). -/
structure ConfigSession where
  sessionType : String
  shell : Option String := none
  host : Option String := none
  user : Option String := none
  port : Option Nat := none
  identityFile : Option String := none
deriving DecidableEq, Repr

/-- `config::Settings` (the fields the embedded operations read). -/
structure Settings where
  defaultSession : String := "local"
deriving DecidableEq, Repr

/-- `config::Config`. -/
structure Config where
  settings : Settings
  sessions : List (String × ConfigSession)
deriving DecidableEq, Repr

/-- Process environment read during construction (`SHELL`, `USER`,
`env::current_dir()`, `dirs::home_dir()`). -/
structure ProcEnv where
  shellVar : Option String := none
  userVar : Option String := none
  currentDir : Option String := none
  homeDir : Option String := none
deriving DecidableEq, Repr

/-- One arm of the `match session_config.session_type.as_str()` in
`Manager::new`: `"local"` and `"ssh"` build a transport, anything else is
skipped (`continue`). -/
def buildSession (penv : ProcEnv) (name : String) (scfg : ConfigSession) :
    Option SessionImpl :=
  if scfg.sessionType = "local" then
    some (.localS (LocalSession.new name scfg.shell penv.shellVar
      penv.currentDir penv.homeDir))
  else if scfg.sessionType = "ssh" then
    some (.sshS (SshSession.new name
      { host := scfg.host.getD ""
        user := scfg.user.getD (penv.userVar.getD "root")
        port := scfg.port.getD 22
        identityFile := scfg.identityFile }))
  else none

/-- The session table built by the `for (name, session_config)` loop of
`Manager::new`: supported kinds are inserted, others skipped. -/
def buildSessions (penv : ProcEnv) :
    List (String × ConfigSession) → List (String × SessionImpl)
  | [] => []
  | p :: t =>
    match buildSession penv p.1 p.2 with
    | some s => (p.1, s) :: buildSessions penv t
    | none => buildSessions penv t

/-- `session::Manager`. -/
structure Manager where
  sessions : List (String × SessionImpl)
  active : String
  stateManager : Option StateManager
deriving DecidableEq, Repr

/-- `Manager::new`. -/
def Manager.new (penv : ProcEnv) (config : Config)
    (stateManager : Option StateManager) : Manager :=
  { sessions := buildSessions penv config.sessions
    active := match stateManager with
      | some sm => sm.getActiveSession
      | none => config.settings.defaultSession
    stateManager }

/-- `Manager::has_session`. -/
def Manager.hasSession (m : Manager) (name : String) : Bool :=
  (m.sessions.lookup name).isSome

/-- `Manager::get_session`. -/
def Manager.getSession (m : Manager) (name : String) : Option SessionImpl :=
  m.sessions.lookup name

/-- `Manager::get_active_session`. -/
def Manager.getActiveSession (m : Manager) : Option SessionImpl :=
  m.sessions.lookup m.active

/-- `Manager::get_active_session_name`. -/
def Manager.getActiveSessionName (m : Manager) : String :=
  m.active

/-- In-place mutation of the named session table entry (the effect of a
`get_mut` borrow). -/
def Manager.updSession (m : Manager) (name : String) (s : SessionImpl) :
    Manager :=
  { m with sessions := insertAssoc m.sessions name s }

/-- `Manager::set_active_session`. -/
def Manager.setActiveSession (m : Manager) (name : String) :
    Manager × Except ThopError Unit :=
  if (m.sessions.lookup name).isNone then
    (m, .error (.session (SessionError.sessionNotFound name)))
  else
    let m := { m with active := name }
    match m.stateManager with
    | some sm =>
      ({ m with stateManager := some (sm.setActiveSession name).1 },
       (sm.setActiveSession name).2)
    | none => (m, .ok ())

/-- `Manager::execute`. -/
def Manager.execute (env : OsEnv) (m : Manager) (cmd : String) :
    Option (Manager × Except ThopError ExecuteResult) :=
  match m.sessions.lookup m.active with
  | none =>
    some (m, .error (.session (SessionError.sessionNotFound m.active)))
  | some s =>
    (s.execute env cmd).map (fun p => (m.updSession m.active p.1, p.2))

/-- `Manager::connect`: delegate to the named transport, then mirror the
connectivity flag through the persistence collaborator, whose failure fails
the call (after the in-memory transport mutation). -/
def Manager.connect (env : OsEnv) (m : Manager) (name : String) :
    Manager × Except ThopError Unit :=
  match m.sessions.lookup name with
  | none => (m, .error (.session (SessionError.sessionNotFound name)))
  | some s =>
    match s.connect env with
    | (s, .error e) => (m.updSession name s, .error e)
    | (s, .ok ()) =>
      let m := m.updSession name s
      match m.stateManager with
      | some sm =>
        ({ m with stateManager := some (sm.setSessionConnected name true).1 },
         (sm.setSessionConnected name true).2)
      | none => (m, .ok ())

/-- `cli::interactive::cmd_switch`: for a configured ssh session that is not
connected, connect first and only then advance the active session. -/
def cmdSwitch (env : OsEnv) (m : Manager) (name : String) :
    Manager × Except ThopError Unit :=
  match m.sessions.lookup name with
  | none => (m, .error (.session (SessionError.sessionNotFound name)))
  | some s =>
    if s.sessionType == "ssh" && !s.isConnected then
      match m.connect env name with
      | (m, .error e) => (m, .error e)
      | (m, .ok ()) => m.setActiveSession name
    else m.setActiveSession name

/-- C3 amended: `set_active_session n` with `n` absent fails with
session-not-found and leaves the manager (in particular `active_session`)
exactly as it was; with `n` present it always sets `active_session` to `n`
(never a silent no-op) and leaves the session table untouched, and the call's
result is `Ok` when no persistence collaborator is configured — but when one
is configured the call returns that collaborator's `save()` outcome, so a
persistence failure makes the call fail even though `n` is a key and
`active_session` has already been updated to `n`. -/
theorem c3_set_active_session (m : Manager) (n : String) :
    ((m.sessions.lookup n).isNone = true →
      m.setActiveSession n =
        (m, .error (.session (SessionError.sessionNotFound n)))) ∧
    ((m.sessions.lookup n).isSome = true →
      (m.setActiveSession n).1.active = n ∧
      (m.setActiveSession n).1.sessions = m.sessions ∧
      (m.stateManager = none → (m.setActiveSession n).2 = .ok ()) ∧
      (∀ sm, m.stateManager = some sm →
        (m.setActiveSession n).2 = sm.saveResult)) := by
  constructor
  · intro h
    simp only [Manager.setActiveSession, h, if_true]
  · intro h
    have hne : ((m.sessions.lookup n).isNone = true) = False := by
      simp only [Option.isNone_iff_eq_none]
      simp only [Option.isSome_iff_exists] at h
      obtain ⟨v, hv⟩ := h
      simp [hv]
    refine ⟨?_, ?_, ?_, ?_⟩ <;>
      simp only [Manager.setActiveSession, hne, if_false]
    · cases hsm : m.stateManager <;> simp
    · cases hsm : m.stateManager <;> simp
    · intro hnone
      simp [hnone]
    · intro sm hsm
      simp [hsm, StateManager.setActiveSession]

/-- C3 counterexample: with a persistence collaborator whose `save()` fails,
`set_active_session` on a *present* key neither succeeds nor fails with
session-not-found — it returns the persistence error, after `active_session`
has already been updated — refuting the claimed dichotomy. -/
theorem c3_set_active_session_counterexample :
    ((Manager.new {} ⟨⟨"local"⟩, [("local", { sessionType := "local" })]⟩
        (some { active := "local", saveResult := .error (.io "disk full") })
      ).setActiveSession "local").2 = .error (.io "disk full") ∧
    ThopError.io "disk full" ≠
      ThopError.session (SessionError.sessionNotFound "local") ∧
    ((Manager.new {} ⟨⟨"local"⟩, [("local", { sessionType := "local" })]⟩
        (some { active := "local", saveResult := .error (.io "disk full") })
      ).sessions.lookup "local").isSome = true ∧
    ((Manager.new {} ⟨⟨"local"⟩, [("local", { sessionType := "local" })]⟩
        (some { active := "local", saveResult := .error (.io "disk full") })
      ).setActiveSession "local").1.active = "local" := by
  refine ⟨rfl, by decide, rfl, rfl⟩

/-- Witness for `c3_set_active_session`, at a concrete manager with one
session `"local"` and no persistence collaborator: switching to the absent
name `"nope"` fails with session-not-found leaving the manager unchanged, and
switching to `"local"` succeeds and sets the active session. -/
theorem c3_set_active_session_witness :
    ((Manager.new {} ⟨⟨"local"⟩, [("local", { sessionType := "local" })]⟩
        none).setActiveSession "nope" =
      (Manager.new {} ⟨⟨"local"⟩, [("local", { sessionType := "local" })]⟩ none,
       .error (.session (SessionError.sessionNotFound "nope")))) ∧
    ((Manager.new {} ⟨⟨"local"⟩, [("local", { sessionType := "local" })]⟩
        none).setActiveSession "local").1.active = "local" ∧
    ((Manager.new {} ⟨⟨"local"⟩, [("local", { sessionType := "local" })]⟩
        none).setActiveSession "local").2 = .ok () := by
  refine ⟨(c3_set_active_session _ "nope").1 (by decide),
    ((c3_set_active_session _ "local").2 (by decide)).1,
    ((c3_set_active_session _ "local").2 (by decide)).2.2.1 rfl⟩

theorem lookup_buildSessions_none (penv : ProcEnv) (name : String) :
    ∀ l : List (String × ConfigSession),
      (∀ scfg, (name, scfg) ∈ l → buildSession penv name scfg = none) →
      (buildSessions penv l).lookup name = none := by
  intro l
  induction l with
  | nil => intro _; rfl
  | cons p t ih =>
    intro h
    have hrec := ih fun scfg hm => h scfg (List.mem_cons_of_mem _ hm)
    by_cases hk : p.1 = name
    · have hb : buildSession penv p.1 p.2 = none := by
        rw [hk]
        exact h p.2 (by rw [← hk]; exact List.mem_cons_self ..)
      rw [buildSessions, hb]
      exact hrec
    · rw [buildSessions]
      cases hb : buildSession penv p.1 p.2 with
      | none => exact hrec
      | some s =>
        show List.lookup name ((p.1, s) :: buildSessions penv t) = none
        have hbe : (name == p.1) = false := by simp [Ne.symm hk]
        simp only [List.lookup_cons, hbe]
        exact hrec

/-- C10: `Manager::new` does not validate the initial active session.  A
config entry whose `type` is neither `"local"` nor `"ssh"` is silently
skipped, yet the manager is still constructed with `active_session` taken
from the persistence collaborator (or the configured default); if that name
has no session, `execute` returns a session-not-found error (leaving the
manager unchanged) and `get_active_session` returns `none` — no fallback to
another session. -/
theorem c10_unvalidated_active_session (penv : ProcEnv) (config : Config)
    (sm : Option StateManager) (name : String)
    (hbad : ∀ scfg, (name, scfg) ∈ config.sessions →
      scfg.sessionType ≠ "local" ∧ scfg.sessionType ≠ "ssh")
    (hactive : (Manager.new penv config sm).active = name) :
    (Manager.new penv config sm).sessions.lookup name = none ∧
    (Manager.new penv config sm).getActiveSession = none ∧
    (∀ env cmd, Manager.execute env (Manager.new penv config sm) cmd =
      some (Manager.new penv config sm,
        .error (.session (SessionError.sessionNotFound name)))) := by
  have hlk : (Manager.new penv config sm).sessions.lookup name = none := by
    apply lookup_buildSessions_none
    intro scfg hm
    have := hbad scfg hm
    unfold buildSession
    rw [if_neg this.1, if_neg this.2]
  refine ⟨hlk, ?_, ?_⟩
  · show (Manager.new penv config sm).sessions.lookup
        (Manager.new penv config sm).active = none
    rw [hactive]
    exact hlk
  · intro env cmd
    show Manager.execute env (Manager.new penv config sm) cmd = _
    unfold Manager.execute
    rw [hactive, hlk]

/-- Witness for `c10_unvalidated_active_session`: a config with the single
entry `"weird"` of unsupported type `"docker"` and default session `"weird"`
(no persistence collaborator) yields a constructed manager with no sessions,
no active session object, and an `execute` that fails with
session-not-found. -/
theorem c10_unvalidated_active_session_witness :
    (Manager.new {} ⟨⟨"weird"⟩, [("weird", { sessionType := "docker" })]⟩
      none).getActiveSession = none ∧
    (∀ env cmd, Manager.execute env
        (Manager.new {} ⟨⟨"weird"⟩, [("weird", { sessionType := "docker" })]⟩
          none) cmd =
      some (Manager.new {} ⟨⟨"weird"⟩, [("weird", { sessionType := "docker" })]⟩
          none,
        .error (.session (SessionError.sessionNotFound "weird")))) := by
  have h := c10_unvalidated_active_session {}
    ⟨⟨"weird"⟩, [("weird", { sessionType := "docker" })]⟩ none "weird"
    (by intro scfg hm
        simp only [List.mem_singleton] at hm
        cases hm
        exact ⟨by decide, by decide⟩)
    rfl
  exact ⟨h.2.1, h.2.2⟩

/-! ## Agent protocol server (`src/thop-rust/src/mcp/`) -/

/-- `serde_json::Value`, restricted to the shapes the modelled code paths
construct or inspect. -/
inductive JVal where
  | null
  | boolVal (b : Bool)
  | numVal (n : Int)
  | strVal (s : String)
  | arrVal (xs : List JVal)
  | objVal (fields : List (String × JVal))

/-- `Value::as_str`. -/
def JVal.asStr : JVal → Option String
  | .strVal s => some s
  | _ => none

/-- `Value::as_bool`. -/
def JVal.asBool : JVal → Option Bool
  | .boolVal b => some b
  | _ => none

/-- `mcp::errors::ErrorCode`. -/
inductive MCPErrorCode where
  | sessionNotFound
  | sessionNotConnected
  | sessionAlreadyExists
  | noActiveSession
  | cannotCloseLocal
  | connectionFailed
  | authFailed
  | authKeyFailed
  | authPasswordFailed
  | hostKeyUnknown
  | hostKeyMismatch
  | connectionTimeout
  | connectionRefused
  | commandFailed
  | commandTimeout
  | commandNotFound
  | permissionDenied
  | invalidParameter
  | missingParameter
  | notImplemented
  | operationFailed
deriving DecidableEq, Repr

/-- `Display for ErrorCode`. -/
def MCPErrorCode.display : MCPErrorCode → String
  | .sessionNotFound => "SESSION_NOT_FOUND"
  | .sessionNotConnected => "SESSION_NOT_CONNECTED"
  | .sessionAlreadyExists => "SESSION_ALREADY_EXISTS"
  | .noActiveSession => "NO_ACTIVE_SESSION"
  | .cannotCloseLocal => "CANNOT_CLOSE_LOCAL"
  | .connectionFailed => "CONNECTION_FAILED"
  | .authFailed => "AUTH_FAILED"
  | .authKeyFailed => "AUTH_KEY_FAILED"
  | .authPasswordFailed => "AUTH_PASSWORD_FAILED"
  | .hostKeyUnknown => "HOST_KEY_UNKNOWN"
  | .hostKeyMismatch => "HOST_KEY_MISMATCH"
  | .connectionTimeout => "CONNECTION_TIMEOUT"
  | .connectionRefused => "CONNECTION_REFUSED"
  | .commandFailed => "COMMAND_FAILED"
  | .commandTimeout => "COMMAND_TIMEOUT"
  | .commandNotFound => "COMMAND_NOT_FOUND"
  | .permissionDenied => "PERMISSION_DENIED"
  | .invalidParameter => "INVALID_PARAMETER"
  | .missingParameter => "MISSING_PARAMETER"
  | .notImplemented => "NOT_IMPLEMENTED"
  | .operationFailed => "OPERATION_FAILED"

/-- `mcp::errors::MCPError`. -/
structure MCPError where
  code : MCPErrorCode
  message : String
  session : Option String := none
  suggestion : Option String := none
deriving DecidableEq, Repr

/-- `MCPError::new`. -/
def MCPError.new (code : MCPErrorCode) (message : String) : MCPError :=
  { code, message }

/-- `MCPError::missing_parameter`. -/
def MCPError.missingParameter (param : String) : MCPError :=
  { MCPError.new .missingParameter
      ("Required parameter \x27" ++ param ++ "\x27 is missing") with
    suggestion := some ("Provide the \x27" ++ param ++ "\x27 parameter") }

/-- `MCPError::session_not_found`. -/
def MCPError.sessionNotFound (name : String) : MCPError :=
  { MCPError.new .sessionNotFound
      ("Session \x27" ++ name ++ "\x27 not found") with
    session := some name
    suggestion := some
      "Use /status to see available sessions or /add-session to create a new one" }

/-- `MCPError::session_not_connected`. -/
def MCPError.sessionNotConnected (name : String) : MCPError :=
  { MCPError.new .sessionNotConnected
      ("Session \x27" ++ name ++ "\x27 is not connected") with
    session := some name
    suggestion := some "Use /connect to establish a connection" }

/-- `protocol::Content` (the `data` field is set by no modelled path and is
omitted). -/
structure Content where
  contentType : String
  text : Option String := none
  mimeType : Option String := none
deriving DecidableEq, Repr

/-- `Content::text`. -/
def Content.textContent (t : String) : Content :=
  { contentType := "text", text := some t }

/-- `protocol::ToolCallResult`. -/
structure ToolCallResult where
  content : List Content
  isError : Bool
deriving DecidableEq, Repr

/-- `MCPError::to_tool_result`. -/
def MCPError.toToolResult (e : MCPError) : ToolCallResult :=
  let text := e.message
  let text := match e.suggestion with
    | some s => text ++ "\n\nSuggestion: " ++ s
    | none => text
  let text := match e.session with
    | some s => text ++ "\n\nSession: " ++ s
    | none => text
  { content := [Content.textContent ("[" ++ e.code.display ++ "] " ++ text)]
    isError := true }

/-- serde serialization of `Content` (camel-cased, `None` fields skipped,
`content_type` renamed to `type`). -/
def encodeContent (c : Content) : JVal :=
  .objVal ([("type", .strVal c.contentType)] ++
    (match c.text with | some t => [("text", .strVal t)] | none => []) ++
    (match c.mimeType with | some m => [("mimeType", .strVal m)] | none => []))

/-- serde serialization of `ToolCallResult` (`is_error` renamed to `isError`
and skipped when false). -/
def encodeToolCallResult (r : ToolCallResult) : JVal :=
  .objVal ([("content", .arrVal (r.content.map encodeContent))] ++
    (if r.isError then [("isError", .boolVal true)] else []))

/-- `protocol::JsonRpcMessage` (parsed). -/
structure JsonRpcMessage where
  jsonrpc : String
  method : Option String := none
  id : Option JVal := none
  params : Option JVal := none

/-- `protocol::JsonRpcError` (`data` is always a `Value::String` where the
source constructs it, modelled as the string). -/
structure JsonRpcError where
  code : Int
  message : String
  data : Option String := none

/-- `protocol::JsonRpcResponse`. -/
structure JsonRpcResponse where
  jsonrpc : String
  id : Option JVal
  result : Option JVal
  error : Option JsonRpcError

/-- `Server::send_response`: the response object written (and flushed) to the
output. -/
def sendResponse (id : Option JVal) (result : Option JVal) : JsonRpcResponse :=
  { jsonrpc := "2.0", id, result, error := none }

/-- `Server::send_error`. -/
def sendError (id : Option JVal) (code : Int) (message : String)
    (data : Option String) : JsonRpcResponse :=
  { jsonrpc := "2.0", id, result := none,
    error := some { code, message, data } }

/-- `server::HandlerFn` over an abstract server state `σ`: the handler takes
the state and the message params and returns the updated state and the
handler outcome. -/
def HandlerFn (σ : Type) : Type :=
  σ → Option JVal → σ × Except MCPError (Option JVal)

/-- The method names registered by `Server::register_handlers`, in
registration order. -/
def registeredMethods : List String :=
  ["initialize", "initialized", "tools/list", "tools/call",
   "resources/list", "resources/read", "ping", "cancelled", "progress"]

/-- The handler table built by `Server::register_handlers`: exactly the
registered method names, each mapped to its handler. -/
def mkHandlerTable {σ : Type} (h : String → HandlerFn σ) :
    List (String × HandlerFn σ) :=
  registeredMethods.map (fun m => (m, h m))

/-- `Server::handle_request`: resolve the handler; an unknown method gets a
`-32601` error response; a known handler's `Ok` is answered only when the
message carried an id, while its `Err` is answered (id or not) as a
*successful* response carrying the serialized tool-error result.  Returns the
updated state and the list of responses written. -/
def handleRequest {σ : Type} (table : List (String × HandlerFn σ)) (st : σ)
    (msg : JsonRpcMessage) (method : String) : σ × List JsonRpcResponse :=
  match table.lookup method with
  | none =>
    (st, [sendError msg.id (-32601) "Method not found"
      (some ("Unknown method: " ++ method))])
  | some h =>
    match h st msg.params with
    | (st, .ok result) =>
      if msg.id.isSome then (st, [sendResponse msg.id result])
      else (st, [])
    | (st, .error e) =>
      (st, [sendResponse msg.id (some (encodeToolCallResult e.toToolResult))])

theorem lookup_map_self_eq_none {σ : Type} (h : String → HandlerFn σ)
    (method : String) :
    ∀ l : List String, method ∉ l →
      (l.map (fun m => (m, h m))).lookup method = none := by
  intro l
  induction l with
  | nil => intro _; rfl
  | cons a t ih =>
    intro hm
    have h1 : method ≠ a := fun he => hm (he ▸ List.mem_cons_self ..)
    have h2 : method ∉ t := fun ht => hm (List.mem_cons_of_mem _ ht)
    simp only [List.map_cons, List.lookup_cons]
    have : (method == a) = false := by simp [h1]
    simp only [this]
    exact ih h2

/-- C5 amended: a parsed message whose method has no registered handler
*always* receives a JSON-RPC error response with code `-32601` — whether or
not the message carried an id (the response mirrors the request's id, absent
ids included) — and the handler state is untouched.  Nothing is dropped. -/
theorem c5_unknown_method_response (σ : Type) (h : String → HandlerFn σ)
    (st : σ) (msg : JsonRpcMessage) (method : String)
    (hm : method ∉ registeredMethods) :
    handleRequest (mkHandlerTable h) st msg method =
      (st, [sendError msg.id (-32601) "Method not found"
        (some ("Unknown method: " ++ method))]) := by
  unfold handleRequest mkHandlerTable
  rw [lookup_map_self_eq_none h method registeredMethods hm]

/-- C5 counterexample: an unknown-method message carrying *no* id is not
dropped — a `-32601` error response is still written (here against the full
registered handler table, with arbitrary handler behaviour). -/
theorem c5_unknown_method_counterexample :
    (handleRequest (σ := Unit)
        (mkHandlerTable (fun _ => fun s _ => (s, .ok none))) ()
        { jsonrpc := "2.0", method := some "does/not/exist", id := none }
        "does/not/exist").2 =
      [sendError none (-32601) "Method not found"
        (some "Unknown method: does/not/exist")] ∧
    (handleRequest (σ := Unit)
        (mkHandlerTable (fun _ => fun s _ => (s, .ok none))) ()
        { jsonrpc := "2.0", method := some "does/not/exist", id := none }
        "does/not/exist").2 ≠ [] := by
  constructor
  · rfl
  · intro hcontra
    have : (1 : Nat) = 0 := congrArg List.length hcontra
    cases this

/-- Witness for `c5_unknown_method_response`: the method `"does/not/exist"`
is not registered, and its request (carrying the id `1`) receives exactly the
`-32601` response. -/
theorem c5_unknown_method_response_witness :
    handleRequest (σ := Unit)
        (mkHandlerTable (fun _ => fun s _ => (s, .ok none))) ()
        { jsonrpc := "2.0", method := some "does/not/exist",
          id := some (.numVal 1) } "does/not/exist" =
      ((), [sendError (some (.numVal 1)) (-32601) "Method not found"
        (some "Unknown method: does/not/exist")]) :=
  c5_unknown_method_response Unit _ () _ "does/not/exist" (by decide)

/-! ## The switch tool and the interactive switch command -/

/-- `Display for ThopError` (`#[error(...)]` attributes of the source). -/
def ThopError.display : ThopError → String
  | .session e => e.message
  | .config msg => "Configuration error: " ++ msg
  | .io msg => "IO error: " ++ msg
  | .state msg => "State error: " ++ msg
  | .other msg => msg

/-- Substring occurrence on character lists (`str::contains`). -/
def listContainsSub (needle : List Char) : List Char → Bool
  | [] => needle.isEmpty
  | c :: rest => needle.isPrefixOf (c :: rest) || listContainsSub needle rest

/-- Rust `str::contains` for string needles. -/
def strContainsSub (hay needle : String) : Bool :=
  listContainsSub needle.data hay.data

/-- `mcp::tools::tool_switch`, acting on the server's session manager: its
whole effect on the manager is one `set_active_session` call (the source's
error classification tests substrings of the error display text). -/
def toolSwitch (m : Manager) (args : List (String × JVal)) :
    Manager × ToolCallResult :=
  match (args.lookup "session").bind JVal.asStr with
  | none => (m, (MCPError.missingParameter "session").toToolResult)
  | some name =>
    match m.setActiveSession name with
    | (m, .error e) =>
      if strContainsSub e.display "not found" then
        (m, (MCPError.sessionNotFound name).toToolResult)
      else if strContainsSub e.display "not connected" then
        (m, (MCPError.sessionNotConnected name).toToolResult)
      else
        (m, { MCPError.new .operationFailed
                ("Failed to switch session: " ++ e.display) with
              session := some name }.toToolResult)
    | (m, .ok ()) =>
      let cwd := match m.getSession name with
        | some s => s.getCwd
        | none => "unknown"
      (m, { content := [Content.textContent
              ("Switched to session \x27" ++ name ++ "\x27 (cwd: "
                ++ cwd ++ ")")]
            isError := false })

theorem lookup_map_replace {α : Type} (k : String) (v : α) :
    ∀ l : List (String × α), l.any (fun p => p.1 == k) = true →
      (l.map (fun p => if p.1 == k then (k, v) else p)).lookup k = some v := by
  intro l
  induction l with
  | nil => intro h; cases h
  | cons p t ih =>
    obtain ⟨pk, pv⟩ := p
    intro h
    by_cases hp : (pk == k) = true
    · simp only [List.map_cons, if_pos hp, List.lookup_cons, beq_self_eq_true]
    · have hany : t.any (fun p => p.1 == k) = true := by
        simp only [List.any_cons, Bool.or_eq_true] at h
        exact h.resolve_left hp
      have hk : (k == pk) = false := by
        have hne : pk ≠ k := by simpa using hp
        simp [Ne.symm hne]
      simp only [List.map_cons, if_neg hp, List.lookup_cons, hk]
      exact ih hany

theorem lookup_append_self {α : Type} (k : String) (v : α) :
    ∀ l : List (String × α), l.any (fun p => p.1 == k) = false →
      (l ++ [(k, v)]).lookup k = some v := by
  intro l
  induction l with
  | nil => intro _; simp [List.lookup_cons]
  | cons p t ih =>
    obtain ⟨pk, pv⟩ := p
    intro h
    simp only [List.any_cons, Bool.or_eq_false_iff] at h
    have hk : (k == pk) = false := by
      have hne : pk ≠ k := by simpa using h.1
      simp [Ne.symm hne]
    simp only [List.cons_append, List.lookup_cons, hk]
    exact ih h.2

theorem lookup_insertAssoc_self {α : Type} (l : List (String × α))
    (k : String) (v : α) : (insertAssoc l k v).lookup k = some v := by
  unfold insertAssoc
  by_cases h : l.any (fun p => p.1 == k) = true
  · rw [if_pos h]
    exact lookup_map_replace k v l h
  · rw [if_neg h]
    refine lookup_append_self k v l ?_
    cases hx : l.any (fun p => p.1 == k) with
    | false => rfl
    | true => exact absurd hx h

/-- On a disconnected remote session, a failing `connect` leaves the session
state untouched, and a successful one installs the live handle. -/
theorem sshConnect_fresh (env : SshEnv) (s : SshSession)
    (hdisc : s.session = none) :
    (∀ e, (SshSession.connect env s).2.1 = .error e →
      (SshSession.connect env s).1 = s) ∧
    ((SshSession.connect env s).2.1 = .ok () →
      (SshSession.connect env s).1.session = some ()) := by
  unfold SshSession.connect
  rw [if_neg (by simp [hdisc])]
  rcases htcp : env.tcpResult with e1 | u1
  · exact ⟨fun e h => rfl, fun h => Except.noConfusion h⟩
  · cases u1
    rcases hhs : env.handshakeResult with e2 | u2
    · exact ⟨fun e h => rfl, fun h => Except.noConfusion h⟩
    · cases u2
      rcases hhk : env.hostKeyResult with e3 | u3
      · exact ⟨fun e h => rfl, fun h => Except.noConfusion h⟩
      · cases u3
        rcases hau : env.authResult with e4 | u4
        · exact ⟨fun e h => rfl, fun h => Except.noConfusion h⟩
        · cases u4
          rcases hpw : env.pwdResult with e5 | out
          · exact ⟨fun e h => rfl, fun h => Except.noConfusion h⟩
          · exact ⟨fun e h => Except.noConfusion h, fun _ => rfl⟩

/-- C2 amended: neither `Manager::set_active_session` nor the MCP
`tool_switch` performs any implicit connect — both advance `active_session`
unconditionally once the name exists (remote and disconnected included) —
while the *interactive CLI's* `cmd_switch` is the operation that, for a
configured ssh session that is not yet connected, first performs an implicit
connect and advances `active_session` only when that connect succeeds (an
absent name fails everywhere). -/
theorem c2_switch_connect_semantics (env : OsEnv) (m : Manager)
    (name : String) (s : SshSession)
    (hlk : m.sessions.lookup name = some (.sshS s))
    (hdisc : s.session = none) (hsm : m.stateManager = none) :
    ((m.setActiveSession name).1.sessions = m.sessions ∧
     (m.setActiveSession name).1.active = name ∧
     (m.setActiveSession name).2 = .ok ()) ∧
    ((toolSwitch m [("session", .strVal name)]).1.sessions = m.sessions ∧
     (toolSwitch m [("session", .strVal name)]).1.active = name) ∧
    (∀ e, (SshSession.connect env.sshEnv s).2.1 = .error e →
      (cmdSwitch env m name).2 = .error e ∧
      (cmdSwitch env m name).1.active = m.active) ∧
    ((SshSession.connect env.sshEnv s).2.1 = .ok () →
      (cmdSwitch env m name).2 = .ok () ∧
      (cmdSwitch env m name).1.active = name ∧
      ((cmdSwitch env m name).1.sessions.lookup name).map
        SessionImpl.isConnected = some true) := by
  have hfresh := sshConnect_fresh env.sshEnv s hdisc
  have hset : m.setActiveSession name = ({ m with active := name }, .ok ()) := by
    unfold Manager.setActiveSession
    rw [if_neg (by simp [hlk]), hsm]
  have hcondT : ((SessionImpl.sshS s).sessionType == "ssh"
      && !(SessionImpl.sshS s).isConnected) = true := by
    simp [SessionImpl.sessionType, SessionImpl.isConnected, hdisc]
  refine ⟨⟨by rw [hset], by rw [hset], by rw [hset]⟩, ?_, ?_, ?_⟩
  · constructor <;>
      simp [toolSwitch, List.lookup_cons, JVal.asStr, hset]
  · intro e herr
    have hst : (SshSession.connect env.sshEnv s).1 = s := hfresh.1 e herr
    have hmc : m.connect env name =
        (m.updSession name (.sshS s), .error e) := by
      simp only [Manager.connect, SessionImpl.connect, hlk, hst, herr]
    constructor <;>
      simp [cmdSwitch, hlk, hcondT, hmc, Manager.updSession]
  · intro hok
    have hsess : (SshSession.connect env.sshEnv s).1.session = some () :=
      hfresh.2 hok
    have hmc : m.connect env name =
        (⟨insertAssoc m.sessions name
            (.sshS (SshSession.connect env.sshEnv s).1), m.active, none⟩,
         .ok ()) := by
      simp only [Manager.connect, SessionImpl.connect, hlk, hok]
      simp [Manager.updSession, hsm]
    have hlk2 : (insertAssoc m.sessions name
        (.sshS (SshSession.connect env.sshEnv s).1)).lookup name =
        some (.sshS (SshSession.connect env.sshEnv s).1) :=
      lookup_insertAssoc_self ..
    refine ⟨?_, ?_, ?_⟩ <;>
      simp [cmdSwitch, hlk, hcondT, hmc, Manager.setActiveSession, hlk2,
        SessionImpl.isConnected, SessionImpl.sessionType, hdisc, hsess]

/-- C2 counterexample: on a configured remote session that is not yet
connected, `set_active_session` succeeds and advances the active session
while the session stays disconnected — no implicit connect is performed, and
success does not depend on one. -/
theorem c2_set_active_session_counterexample :
    ((Manager.new {} ⟨⟨"local"⟩,
        [("local", { sessionType := "local" }),
         ("srv", { sessionType := "ssh", host := some "h" })]⟩ none
      ).setActiveSession "srv").2 = .ok () ∧
    ((Manager.new {} ⟨⟨"local"⟩,
        [("local", { sessionType := "local" }),
         ("srv", { sessionType := "ssh", host := some "h" })]⟩ none
      ).setActiveSession "srv").1.active = "srv" ∧
    (((Manager.new {} ⟨⟨"local"⟩,
        [("local", { sessionType := "local" }),
         ("srv", { sessionType := "ssh", host := some "h" })]⟩ none
      ).setActiveSession "srv").1.sessions.lookup "srv").map
      SessionImpl.isConnected = some false := by
  decide

/-- Witness for `c2_switch_connect_semantics` on a concrete manager (local
session `"local"`, disconnected ssh session `"srv"`, no persistence): with an
all-failing connect environment `cmd_switch` fails and keeps the active
session, and with an all-succeeding one it connects and advances it; the
manager-level switch itself succeeds unconditionally. -/
theorem c2_switch_connect_semantics_witness :
    ((Manager.new {} ⟨⟨"local"⟩,
        [("local", { sessionType := "local" }),
         ("srv", { sessionType := "ssh", host := some "h" })]⟩ none
      ).setActiveSession "srv").2 = .ok () ∧
    (cmdSwitch
        ⟨⟨fun _ => false, fun _ => false, fun _ _ _ _ => .error "spawn", none⟩,
         ⟨.error (.other "tcp refused"), .ok (), .ok (), .ok (), .ok "/\n"⟩,
         fun _ => .error "chan"⟩
        (Manager.new {} ⟨⟨"local"⟩,
          [("local", { sessionType := "local" }),
           ("srv", { sessionType := "ssh", host := some "h" })]⟩ none)
        "srv").2 = .error (.other "tcp refused") ∧
    (cmdSwitch
        ⟨⟨fun _ => false, fun _ => false, fun _ _ _ _ => .error "spawn", none⟩,
         ⟨.error (.other "tcp refused"), .ok (), .ok (), .ok (), .ok "/\n"⟩,
         fun _ => .error "chan"⟩
        (Manager.new {} ⟨⟨"local"⟩,
          [("local", { sessionType := "local" }),
           ("srv", { sessionType := "ssh", host := some "h" })]⟩ none)
        "srv").1.active = "local" ∧
    (cmdSwitch
        ⟨⟨fun _ => false, fun _ => false, fun _ _ _ _ => .error "spawn", none⟩,
         ⟨.ok (), .ok (), .ok (), .ok (), .ok "/root\n"⟩,
         fun _ => .error "chan"⟩
        (Manager.new {} ⟨⟨"local"⟩,
          [("local", { sessionType := "local" }),
           ("srv", { sessionType := "ssh", host := some "h" })]⟩ none)
        "srv").1.active = "srv" := by
  have h1 := c2_switch_connect_semantics
    ⟨⟨fun _ => false, fun _ => false, fun _ _ _ _ => .error "spawn", none⟩,
     ⟨.error (.other "tcp refused"), .ok (), .ok (), .ok (), .ok "/\n"⟩,
     fun _ => .error "chan"⟩
    (Manager.new {} ⟨⟨"local"⟩,
      [("local", { sessionType := "local" }),
       ("srv", { sessionType := "ssh", host := some "h" })]⟩ none)
    "srv" (SshSession.new "srv" ⟨"h", "root", 22, none⟩)
    (by decide) rfl rfl
  have h2 := c2_switch_connect_semantics
    ⟨⟨fun _ => false, fun _ => false, fun _ _ _ _ => .error "spawn", none⟩,
     ⟨.ok (), .ok (), .ok (), .ok (), .ok "/root\n"⟩,
     fun _ => .error "chan"⟩
    (Manager.new {} ⟨⟨"local"⟩,
      [("local", { sessionType := "local" }),
       ("srv", { sessionType := "ssh", host := some "h" })]⟩ none)
    "srv" (SshSession.new "srv" ⟨"h", "root", 22, none⟩)
    (by decide) rfl rfl
  exact ⟨h1.1.2.2,
    (h1.2.2.1 (.other "tcp refused") rfl).1,
    (h1.2.2.1 (.other "tcp refused") rfl).2,
    (h2.2.2.2 rfl).2.1⟩

/-! ## Background jobs (`src/thop-rust/src/cli/mod.rs`,
`src/thop-rust/src/cli/interactive.rs`)

`Instant` timestamps are modelled as abstract tick counts supplied by the
caller. -/

/-- `cli::BackgroundJob`. -/
structure BackgroundJob where
  id : Nat
  command : String
  session : String
  startTime : Nat
  endTime : Option Nat
  status : String
  exitCode : Int
  stdout : String
  stderr : String
deriving DecidableEq, Repr

/-- `BackgroundJob::new`. -/
def BackgroundJob.new (id : Nat) (command session : String) (now : Nat) :
    BackgroundJob :=
  { id, command, session, startTime := now, endTime := none,
    status := "running", exitCode := 0, stdout := "", stderr := "" }

/-- `HashMap::insert` on the `Nat`-keyed job table. -/
def insertNatAssoc {α : Type} (l : List (Nat × α)) (k : Nat) (v : α) :
    List (Nat × α) :=
  if l.any (fun p => p.1 == k) then
    l.map (fun p => if p.1 == k then (k, v) else p)
  else l ++ [(k, v)]

/-- `HashMap::remove` on the `Nat`-keyed job table. -/
def removeNatAssoc {α : Type} (l : List (Nat × α)) (k : Nat) :
    List (Nat × α) :=
  l.filter (fun p => p.1 != k)

theorem lookup_map_replace_nat {α : Type} (k : Nat) (v : α) :
    ∀ l : List (Nat × α), l.any (fun p => p.1 == k) = true →
      (l.map (fun p => if p.1 == k then (k, v) else p)).lookup k = some v := by
  intro l
  induction l with
  | nil => intro h; cases h
  | cons p t ih =>
    obtain ⟨pk, pv⟩ := p
    intro h
    by_cases hp : (pk == k) = true
    · simp only [List.map_cons, if_pos hp, List.lookup_cons, beq_self_eq_true]
    · have hany : t.any (fun p => p.1 == k) = true := by
        simp only [List.any_cons, Bool.or_eq_true] at h
        exact h.resolve_left hp
      have hk : (k == pk) = false := by
        have hne : pk ≠ k := by simpa using hp
        simp [Ne.symm hne]
      simp only [List.map_cons, if_neg hp, List.lookup_cons, hk]
      exact ih hany

theorem lookup_append_self_nat {α : Type} (k : Nat) (v : α) :
    ∀ l : List (Nat × α), l.any (fun p => p.1 == k) = false →
      (l ++ [(k, v)]).lookup k = some v := by
  intro l
  induction l with
  | nil => intro _; simp [List.lookup_cons]
  | cons p t ih =>
    obtain ⟨pk, pv⟩ := p
    intro h
    simp only [List.any_cons, Bool.or_eq_false_iff] at h
    have hk : (k == pk) = false := by
      have hne : pk ≠ k := by simpa using h.1
      simp [Ne.symm hne]
    simp only [List.cons_append, List.lookup_cons, hk]
    exact ih h.2

theorem lookup_insertNatAssoc_self {α : Type} (l : List (Nat × α))
    (k : Nat) (v : α) : (insertNatAssoc l k v).lookup k = some v := by
  unfold insertNatAssoc
  by_cases h : l.any (fun p => p.1 == k) = true
  · rw [if_pos h]
    exact lookup_map_replace_nat k v l h
  · rw [if_neg h]
    refine lookup_append_self_nat k v l ?_
    cases hx : l.any (fun p => p.1 == k) with
    | false => rfl
    | true => exact absurd hx h

/-- The job bookkeeping owned by `App`: the `next_job_id` counter (guarded by
its own `Mutex`) and the job table (guarded by the `RwLock`).  `App::new`
initialises the counter to `1` and the table to empty — the default field
values. -/
structure JobState where
  nextJobId : Nat := 1
  jobs : List (Nat × BackgroundJob) := []
deriving DecidableEq, Repr

/-- `cli::interactive::cmd_bg` up to the thread spawn: take the counter lock,
hand out the current id and increment; create the job (status `"running"`)
and insert it under the table's write lock.  Returns the new state and the
allocated id.  (The worker thread's completion write-back happens later and
does not affect "immediately after submission".) -/
def cmdBg (st : JobState) (command session : String) (now : Nat) :
    JobState × Nat :=
  let jobId := st.nextJobId
  let job := BackgroundJob.new jobId command session now
  ({ nextJobId := st.nextJobId + 1,
     jobs := insertNatAssoc st.jobs jobId job }, jobId)

/-- The "Job <id> not found" message of `cmd_kill_job`. -/
def jobNotFoundMsg (id : Nat) : String :=
  "Job " ++ toString id ++ " not found"

/-- The "Job <id> is not running" message of `cmd_kill_job`. -/
def jobNotRunningMsg (id : Nat) (st : String) : String :=
  "Job " ++ toString id ++ " is not running (status: " ++ st ++ ")"

/-- The two failure messages of `cmd_kill_job` are distinct, whatever the id
and recorded status. -/
theorem jobMsgs_ne (id : Nat) (st : String) :
    jobNotRunningMsg id st ≠ jobNotFoundMsg id := by
  intro h
  have hl := congrArg String.length h
  unfold jobNotRunningMsg jobNotFoundMsg at hl
  simp only [String.length_append] at hl
  have e1 : " is not running (status: ".length = 25 := rfl
  have e2 : ")".length = 1 := rfl
  have e3 : " not found".length = 10 := rfl
  rw [e1, e2, e3] at hl
  omega

/-- `cli::interactive::cmd_kill_job` (after the job-id string parse): a
running job is force-marked failed with exit code 137 and removed from the
table; a missing id or a non-running job fails without mutating the table. -/
def cmdKillJob (jobs : List (Nat × BackgroundJob)) (jobId : Nat) (now : Nat) :
    List (Nat × BackgroundJob) × Except ThopError Unit :=
  match jobs.lookup jobId with
  | none => (jobs, .error (.other (jobNotFoundMsg jobId)))
  | some job =>
    if job.status ≠ "running" then
      (jobs, .error (.other (jobNotRunningMsg jobId job.status)))
    else
      let killed := { job with
        status := "failed"
        endTime := some now
        stderr := "killed by user"
        exitCode := 137 }
      (removeNatAssoc (insertNatAssoc jobs jobId killed) jobId, .ok ())

/-- C6: `kill` on a job whose status is already `"completed"` or `"failed"`
fails with the distinct "is not running" error (different from the missing-id
error) and returns the job table exactly as it was — the job is neither
removed nor are any of its fields changed. -/
theorem c6_kill_finished_job (jobs : List (Nat × BackgroundJob))
    (jobId now : Nat) (job : BackgroundJob)
    (hlk : jobs.lookup jobId = some job)
    (hst : job.status = "completed" ∨ job.status = "failed") :
    cmdKillJob jobs jobId now =
      (jobs, .error (.other (jobNotRunningMsg jobId job.status))) ∧
    ThopError.other (jobNotRunningMsg jobId job.status) ≠
      ThopError.other (jobNotFoundMsg jobId) := by
  have hne : job.status ≠ "running" := by
    rcases hst with h | h <;> (rw [h]; decide)
  constructor
  · simp only [cmdKillJob, hlk]
    rw [if_pos hne]
  · intro h
    injection h with h2
    exact jobMsgs_ne jobId job.status h2

/-- Witness for `c6_kill_finished_job`: a concrete table with one completed
job (id 1); killing it fails with the "is not running" message and leaves the
table unchanged. -/
theorem c6_kill_finished_job_witness :
    cmdKillJob
        [(1, { BackgroundJob.new 1 "echo x" "local" 0 with
               status := "completed", endTime := some 5 })] 1 9 =
      ([(1, { BackgroundJob.new 1 "echo x" "local" 0 with
              status := "completed", endTime := some 5 })],
       .error (.other (jobNotRunningMsg 1 "completed"))) :=
  (c6_kill_finished_job _ 1 9
    { BackgroundJob.new 1 "echo x" "local" 0 with
      status := "completed", endTime := some 5 }
    (by decide) (Or.inl rfl)).1

/-- C9: job ids are handed out strictly increasingly starting at 1: a
submission returns the current counter value and bumps the counter, so the
next submission's id is one larger; from the freshly constructed `App` (the
default `JobState`) the first id is 1; and immediately after a submission the
new job is present in the table with status `"running"`. -/
theorem c9_job_id_allocation (st : JobState) (c s : String) (t : Nat) :
    ((cmdBg st c s t).2 = st.nextJobId ∧
     (cmdBg st c s t).1.nextJobId = st.nextJobId + 1) ∧
    (∀ c2 s2 t2, (cmdBg (cmdBg st c s t).1 c2 s2 t2).2 = st.nextJobId + 1 ∧
      (cmdBg st c s t).2 < (cmdBg (cmdBg st c s t).1 c2 s2 t2).2) ∧
    ((cmdBg {} c s t).2 = 1) ∧
    (((cmdBg st c s t).1.jobs.lookup (cmdBg st c s t).2).map
      BackgroundJob.status = some "running") := by
  refine ⟨⟨rfl, rfl⟩, fun c2 s2 t2 => ⟨rfl, Nat.lt_succ_self _⟩, rfl, ?_⟩
  show ((insertNatAssoc st.jobs st.nextJobId
      (BackgroundJob.new st.nextJobId c s t)).lookup st.nextJobId).map
    BackgroundJob.status = some "running"
  rw [lookup_insertNatAssoc_self]
  rfl

end Thop
